import Mathlib

/-!
Verification development for the TalentScout hiring-assistant repository.

Shallow embedding of the Python sources (model_client.py, schemas.py,
llm.py, utils.py, app.py) as executable Lean definitions, followed by
theorems checking the repository specification against the code.

Conventions:
- Python strings are Lean `String`s; character-level scanning is done on
  `String.data` (a `List Char`).
- Fallible Python code (raising exceptions) is embedded with `Option` or
  `Except`.
- Calls into external libraries (the OpenAI client, rapidfuzz scoring,
  email/phone/geocoding validation, langdetect, vaderSentiment) are
  abstracted as explicit oracle parameters; everything implemented in the
  repository itself is embedded concretely.
-/

namespace TalentScout

/-! ## Generic list/string helpers -/

/-- Whether `k` is an initial segment of `l` (Boolean test by recursion). -/
def startsWithB [DecidableEq α] : List α → List α → Bool
  | [], _ => true
  | _ :: _, [] => false
  | a :: as, b :: bs => a = b && startsWithB as bs

/-- Whether `k` occurs as a contiguous subsequence of `l`. Models Python's
`k in s` substring test when applied to `String.data`. -/
def containsSeq [DecidableEq α] (k : List α) : List α → Bool
  | [] => k.isEmpty
  | b :: bs => startsWithB k (b :: bs) || containsSeq k bs

/-- Python's `k in s` substring containment on strings. -/
def containsSub (k s : String) : Bool := containsSeq k.data s.data

/-- Python's `str.lower()` / `str.casefold()`, which agree with
character-wise `Char.toLower` on the ASCII inputs used throughout this
repository. -/
def pyLower (s : String) : String := ⟨s.data.map Char.toLower⟩

theorem startsWithB_iff [DecidableEq α] (k l : List α) :
    startsWithB k l = true ↔ ∃ t, k ++ t = l := by
  induction k generalizing l with
  | nil => simp [startsWithB]
  | cons a as ih =>
    cases l with
    | nil => simp [startsWithB]
    | cons b bs =>
      simp only [startsWithB, Bool.and_eq_true, decide_eq_true_eq, ih]
      constructor
      · rintro ⟨rfl, t, rfl⟩; exact ⟨t, rfl⟩
      · rintro ⟨t, h⟩
        rw [List.cons_append] at h
        obtain ⟨h1, h2⟩ := List.cons.inj h
        exact ⟨h1, t, h2⟩

theorem containsSeq_iff [DecidableEq α] (k l : List α) :
    containsSeq k l = true ↔ ∃ s t, s ++ k ++ t = l := by
  induction l with
  | nil =>
    simp only [containsSeq, List.isEmpty_iff]
    constructor
    · rintro rfl; exact ⟨[], [], rfl⟩
    · rintro ⟨s, t, h⟩
      rcases List.append_eq_nil.mp h with ⟨h1, h2⟩
      exact (List.append_eq_nil.mp h1).2
  | cons b bs ih =>
    simp only [containsSeq, Bool.or_eq_true, startsWithB_iff, ih]
    constructor
    · rintro (⟨t, h⟩ | ⟨s, t, h⟩)
      · exact ⟨[], t, by simpa using h⟩
      · exact ⟨b :: s, t, by simp [h]⟩
    · rintro ⟨s, t, h⟩
      cases s with
      | nil => exact Or.inl ⟨t, by simpa using h⟩
      | cons c cs =>
        rw [List.cons_append, List.cons_append] at h
        obtain ⟨h1, h2⟩ := List.cons.inj h
        exact Or.inr ⟨cs, t, h2⟩

/-! ## model_client.py -/

/-- Result dictionary returned by `model_client.chat`
(`{"ok": …, "content": …, "insufficient_quota": …, "error": …}`). -/
structure ChatResult where
  ok : Bool
  content : Option String
  insufficient_quota : Bool
  error : String
deriving Repr, DecidableEq

/-- Outcome of one `client.chat.completions.create` attempt, as seen by the
`try` block in `model_client.chat`:
- `success c`: the API call returns a completion whose first choice has
  message content `c`;
- `rateLimit msg`: the call raises `RateLimitError` with message `msg`;
- `apiErr`: the call raises `APIError`, `APIConnectionError` or
  `APITimeoutError`;
- `otherExc msg`: the call raises some other exception with message `msg`. -/
inductive ApiOutcome where
  | success (content : String)
  | rateLimit (msg : String)
  | apiErr
  | otherExc (msg : String)

/-- Message of the `AttributeError` raised by line 28 of model_client.py,
`content = resp.choices.message.content`: `resp.choices` is a *list* of
choices and has no attribute `message` (the index `[0]` is missing), so on
a successful API response the attribute access raises, and the generic
`except Exception` handler turns the call into a failure. -/
def choicesAttributeError : String := "list object has no attribute message"

/-- Loop body of `model_client.chat`: `i` is the current 0-based attempt
index, `fuel` the number of attempts remaining out of `max_tries`.
Returns the result dictionary together with the number of attempts made.
`time.sleep(_jittered_backoff(i))` is a pure delay and is not modelled. -/
def chatLoop (f : Nat → ApiOutcome) : Nat → Nat → ChatResult × Nat
  | i, 0 => ({ ok := false, content := none, insufficient_quota := false,
               error := "max_retries" }, i)
  | i, fuel + 1 =>
    match f i with
    | .success _ =>
        ({ ok := false, content := none, insufficient_quota := false,
           error := choicesAttributeError }, i + 1)
    | .rateLimit msg =>
        if containsSub "insufficient_quota" (pyLower msg)
            || containsSub "exceeded your current quota" (pyLower msg) then
          ({ ok := false, content := none, insufficient_quota := true,
             error := "insufficient_quota" }, i + 1)
        else chatLoop f (i + 1) fuel
    | .apiErr => chatLoop f (i + 1) fuel
    | .otherExc msg =>
        ({ ok := false, content := none, insufficient_quota := false,
           error := msg }, i + 1)

/-- `model_client.chat` over a given trace of per-attempt outcomes; the
second component counts the attempts actually made. -/
def chat (f : Nat → ApiOutcome) (max_tries : Nat) : ChatResult × Nat :=
  chatLoop f 0 max_tries

/-! ## schemas.py -/

/-- `schemas.END_KEYWORDS`. -/
def END_KEYWORDS : List String := ["exit", "bye", "quit", "stop", "goodbye"]

/-- `schemas.TechStack`. -/
structure TechStack where
  languages : List String
  frameworks : List String
  databases : List String
  tools : List String
deriving Repr, DecidableEq

/-- `TechStack()` with pydantic defaults (empty lists). -/
def TechStack.init : TechStack := ⟨[], [], [], []⟩

/-- `schemas.Candidate`. Optional string fields are `Option String`;
`years_experience` is a real number, embedded as `Option ℚ` (its only uses
in the claims are presence and the 0–60 range check). -/
structure Candidate where
  consent : Bool
  full_name : Option String
  email : Option String
  phone : Option String
  years_experience : Option ℚ
  desired_positions : List String
  current_location : Option String
  tech_stack : Option TechStack
  language : Option String
deriving Repr, DecidableEq

/-- `Candidate()` with pydantic defaults. -/
def Candidate.init : Candidate :=
  { consent := false, full_name := none, email := none, phone := none
    years_experience := none, desired_positions := []
    current_location := none, tech_stack := none, language := some "en" }

/-- Python falsiness of an optional string (`not self.full_name`):
unset when `None` or the empty string. -/
def optStrUnset : Option String → Bool
  | none => true
  | some s => s = ""

/-- `Candidate.missing_fields` from schemas.py: conditionally appends the
eight field names in source order. The `tech_stack` test is `not
self.tech_stack`, and a pydantic model instance is always truthy, so only
`None` counts as missing there; `years_experience` is tested with
`is None`. -/
def Candidate.missing_fields (c : Candidate) : List String :=
  (if !c.consent then ["consent"] else [])
  ++ (if optStrUnset c.full_name then ["full_name"] else [])
  ++ (if optStrUnset c.email then ["email"] else [])
  ++ (if optStrUnset c.phone then ["phone"] else [])
  ++ (if c.years_experience.isNone then ["years_experience"] else [])
  ++ (if c.desired_positions.isEmpty then ["desired_positions"] else [])
  ++ (if optStrUnset c.current_location then ["current_location"] else [])
  ++ (if c.tech_stack.isNone then ["tech_stack"] else [])

/-! ## app.py: FieldResolver (`next_missing_field`) -/

/-- The fixed field order from `app.next_missing_field`. -/
def fieldOrder : List String :=
  ["consent", "full_name", "email", "phone", "years_experience",
   "desired_positions", "current_location", "tech_stack"]

/-- Loop of `app.next_missing_field`: return the first field of the order
that is in the missing list, else the empty string. -/
def nmfGo (missing : List String) : List String → String
  | [] => ""
  | f :: fs => if missing.contains f then f else nmfGo missing fs

/-- `app.next_missing_field`. -/
def next_missing_field (c : Candidate) : String :=
  nmfGo c.missing_fields fieldOrder

/-- Per-field presence rule as the code applies it (Python truthiness in
`Candidate.missing_fields`): strings must be non-empty, the number
non-null, the list non-empty — and `tech_stack` counts as set whenever it
is non-null, because a pydantic model instance is always truthy even with
four empty category lists. This last point is where the code diverges from
the specification's presence rule (see `specFieldUnset`). -/
def fieldUnset (c : Candidate) (f : String) : Bool :=
  if f = "consent" then !c.consent
  else if f = "full_name" then optStrUnset c.full_name
  else if f = "email" then optStrUnset c.email
  else if f = "phone" then optStrUnset c.phone
  else if f = "years_experience" then c.years_experience.isNone
  else if f = "desired_positions" then c.desired_positions.isEmpty
  else if f = "current_location" then optStrUnset c.current_location
  else if f = "tech_stack" then c.tech_stack.isNone
  else false

/-- Per-field presence rule as the specification's data-model invariant
words it: "non-empty string / non-null number / non-empty list / non-null
stack with at least one non-empty category". It differs from the code's
truthiness rule (`fieldUnset`) only at `tech_stack`, where a non-null
stack whose four categories are all empty is still unset for the spec. -/
def specFieldUnset (c : Candidate) (f : String) : Bool :=
  if f = "tech_stack" then
    match c.tech_stack with
    | none => true
    | some ts =>
      ts.languages.isEmpty && ts.frameworks.isEmpty && ts.databases.isEmpty
        && ts.tools.isEmpty
  else fieldUnset c f

/-- A candidate whose every field is set under the code's truthiness rule,
but whose tech_stack is a non-null stack with all four categories empty —
unset under the specification's presence rule. -/
def allSetEmptyStackCand : Candidate :=
  { consent := true, full_name := some "Ada Lovelace"
    email := some "ada@example.com", phone := some "+15551234567"
    years_experience := some 3, desired_positions := ["Backend Engineer"]
    current_location := some "Surat, India"
    tech_stack := some ⟨[], [], [], []⟩, language := some "en" }

theorem missing_fields_contains (c : Candidate) (f : String) (hf : f ∈ fieldOrder) :
    c.missing_fields.contains f = fieldUnset c f := by
  fin_cases hf <;>
    simp [Candidate.missing_fields, fieldUnset] <;>
    first
      | (split_ifs <;> simp_all)
      | (cases c.years_experience <;> simp)
      | (cases c.desired_positions <;> simp)
      | (cases c.tech_stack <;> simp)

theorem nmfGo_eq_find? (m l : List String) :
    nmfGo m l = ((l.find? (fun f => m.contains f)).getD "") := by
  induction l with
  | nil => rfl
  | cons f fs ih =>
    cases h : m.contains f with
    | true => simp only [nmfGo, List.find?, h, if_true, Option.getD_some]
    | false => simp only [nmfGo, List.find?, h, Bool.false_eq_true, if_false, ih]

theorem find?_congr_list (p q : String → Bool) (l : List String)
    (h : ∀ x ∈ l, p x = q x) : l.find? p = l.find? q := by
  induction l with
  | nil => rfl
  | cons a as ih =>
    have ha := h a (by simp)
    by_cases hp : p a = true
    · simp [List.find?, hp, ha ▸ hp]
    · have hq : q a ≠ true := fun hc => hp (ha ▸ hc)
      simp only [List.find?, Bool.not_eq_true] at hp hq ⊢
      rw [hp, hq]
      exact ih fun x hx => h x (by simp [hx])

theorem find?_getD_empty_iff (p : String → Bool) (l : List String)
    (hne : "" ∉ l) :
    (((l.find? p).getD "") = "") ↔ ∀ x ∈ l, p x = false := by
  rcases hf : l.find? p with _ | x
  · rw [List.find?_eq_none] at hf
    simp only [Option.getD_none, true_iff]
    exact fun x hx => by simpa using hf x hx
  · have hx := List.mem_of_find?_eq_some hf
    have hp := List.find?_some hf
    simp only [Option.getD_some]
    constructor
    · intro he; exact absurd (he ▸ hx) hne
    · intro hall; exact absurd hp (by simp [hall x hx])

/-- C1: the claim says a backend chat call whose attempts 1–4 fail
transiently and whose attempt 5 succeeds with content `c` returns success
with content `c`. The code cannot do this: line 28 of model_client.py reads
`resp.choices.message.content` (missing the `[0]` choice index), so a
successful API response raises `AttributeError` inside the `try` block,
is caught by the generic `except Exception` handler, and the call returns
`ok = False` with the exception text. The quota half of the claim does hold:
a first-attempt `RateLimitError` carrying a quota-exhaustion message returns
failure after exactly one attempt. This theorem evaluates the embedded code
on both traces of the claim. -/
theorem C1_chat_success_code_bug :
    chat (fun i => if i < 4 then .apiErr else .success "c") 5
      = ({ ok := false, content := none, insufficient_quota := false,
           error := choicesAttributeError }, 5)
    ∧ chat (fun _ => .rateLimit "You exceeded your current quota.") 5
      = ({ ok := false, content := none, insufficient_quota := true,
           error := "insufficient_quota" }, 1) :=
  ⟨rfl, rfl⟩

/-- C3 counterexample: under the specification's per-field presence rule
(`specFieldUnset`, "non-null stack with at least one non-empty category"),
the claimed "empty result if and only if every field is set" is false: on
a candidate whose tech_stack is a non-null stack with all four categories
empty, the resolver returns the empty result although the spec's rule
still counts tech_stack as unset — the code's `not self.tech_stack` test
is mere non-nullness, since a pydantic model instance is always truthy. -/
theorem C3_counterexample :
    next_missing_field allSetEmptyStackCand = ""
    ∧ specFieldUnset allSetEmptyStackCand "tech_stack" = true
    ∧ "tech_stack" ∈ fieldOrder
    ∧ ¬ (next_missing_field allSetEmptyStackCand = ""
          ↔ ∀ f ∈ fieldOrder, specFieldUnset allSetEmptyStackCand f = false) := by
  decide

/-- C3 (amended): the field resolver `next_missing_field` returns the
first unset field scanning the fixed order consent, full_name, email,
phone, years_experience, desired_positions, current_location, tech_stack,
under the presence rule the code actually applies (`fieldUnset`: Python
truthiness, so tech_stack counts as set whenever non-null); on a fresh
empty `Candidate` it returns `"consent"`, and it returns the empty string
if and only if every field in that order is set under that rule. The
code's rule agrees with the specification's presence rule on every field
except tech_stack. -/
theorem C3_field_resolver (c : Candidate) :
    next_missing_field Candidate.init = "consent"
    ∧ next_missing_field c = ((fieldOrder.find? (fieldUnset c)).getD "")
    ∧ (next_missing_field c = "" ↔ ∀ f ∈ fieldOrder, fieldUnset c f = false)
    ∧ (∀ f ∈ fieldOrder, f ≠ "tech_stack"
        → specFieldUnset c f = fieldUnset c f) := by
  have hkey : next_missing_field c = ((fieldOrder.find? (fieldUnset c)).getD "") := by
    rw [next_missing_field, nmfGo_eq_find?,
        find?_congr_list (fun f => c.missing_fields.contains f) (fieldUnset c)
          fieldOrder (fun f hf => missing_fields_contains c f hf)]
  refine ⟨by decide, hkey, ?_, ?_⟩
  · rw [hkey]
    exact find?_getD_empty_iff (fieldUnset c) fieldOrder (by decide)
  · intro f hf hne
    fin_cases hf <;>
      first
        | (exact absurd rfl hne)
        | simp [specFieldUnset]

/-- Witness instantiating the amended C3 at the fresh empty record. -/
theorem C3_field_resolver_witness :
    next_missing_field Candidate.init = "consent" :=
  (C3_field_resolver Candidate.init).1

/-! ## JSON values (model of Python `json` documents)

Python dicts/lists parsed from JSON are embedded as a `Json` inductive;
objects keep their key/value pairs in insertion order. -/

inductive Json where
  | null
  | bool (b : Bool)
  | num (lexeme : String)
  | str (s : String)
  | arr (elems : List Json)
  | obj (fields : List (String × Json))
deriving Repr

/-- Looks up key `k` in a JSON object's field list and returns its value
when that value is a JSON string (the shape pydantic accepts for the
`str`-typed fields of `schemas.Question`). -/
def lookupStr (fields : List (String × Json)) (k : String) : Option String :=
  match fields.lookup k with
  | some (.str s) => some s
  | _ => none

/-! ## llm.py -/

/-- `schemas.Question`: three plain `str` fields. Note the source declares
`difficulty : str` with no enum constraint. -/
structure Question where
  topic : String
  question : String
  difficulty : String
deriving Repr, DecidableEq

/-- Result of `Question(**q).model_dump()` for a JSON item `q`:
`some` exactly when `q` is an object whose `topic`, `question` and
`difficulty` keys are all present with string values (pydantic v2 performs
no str coercion of other primitives and ignores extra keys); `none` models
the `ValidationError`/`TypeError` caught by `_validate_questions`. -/
def questionOfJson : Json → Option Question
  | .obj fields =>
    match lookupStr fields "topic", lookupStr fields "question",
          lookupStr fields "difficulty" with
    | some t, some q, some d => some ⟨t, q, d⟩
    | _, _, _ => none
  | _ => none

/-- `llm._validate_questions`: per-item `try: Question(**q) except: continue`. -/
def _validate_questions : List Json → List Question
  | [] => []
  | j :: js =>
    match questionOfJson j with
    | some q => q :: _validate_questions js
    | none => _validate_questions js

/-- Updates the per-topic counter dictionary of `_cap_per_topic`. -/
def updateCount : List (String × Nat) → String → Nat → List (String × Nat)
  | [], k, v => [(k, v)]
  | (k', v') :: rest, k, v =>
    if k' = k then (k, v) :: rest else (k', v') :: updateCount rest k v

/-- Loop of `llm._cap_per_topic`: increment the running count for the
item's topic and keep the item while the count stays within
`QUESTIONS_PER_TOPIC` (`qPer`). -/
def capGo (qPer : Int) (per : List (String × Nat)) : List Question → List Question
  | [] => []
  | q :: qs =>
    let cnt := ((per.lookup q.topic).getD 0) + 1
    let per' := updateCount per q.topic cnt
    if (cnt : Int) ≤ qPer then q :: capGo qPer per' qs else capGo qPer per' qs

/-- `llm._cap_per_topic` with the `QUESTIONS_PER_TOPIC` environment value
as a parameter (default `3` in the source). -/
def _cap_per_topic (qPer : Int) (items : List Question) : List Question :=
  capGo qPer [] items

/-- `llm._topics`: concatenation of the four stack categories in order. -/
def _topics (s : TechStack) : List String :=
  s.languages ++ s.frameworks ++ s.databases ++ s.tools

/-- The three fixed-template fallback question dicts emitted per topic by
`llm._fallback`. -/
def fallbackTriple (t : String) : List Json :=
  [ .obj [("topic", .str t),
          ("question", .str ("Explain fundamentals of " ++ t
            ++ " and show a simple example.")),
          ("difficulty", .str "beginner")],
    .obj [("topic", .str t),
          ("question", .str ("Describe a debugging incident you solved in "
            ++ t ++ ".")),
          ("difficulty", .str "intermediate")],
    .obj [("topic", .str t),
          ("question", .str ("Design for performance/reliability in " ++ t
            ++ " under load—key trade-offs?")),
          ("difficulty", .str "advanced")] ]

/-- `llm._fallback` with the `QUESTIONS_PER_TOPIC` (`qPer`, default 3) and
`MAX_TOPICS` (`maxTopics`, default 2) environment values as parameters.
The source slices `topics[:MAX_TOPICS]` only when `MAX_TOPICS > 0`. -/
def _fallback (qPer maxTopics : Int) (s : TechStack) : List Question :=
  let topics := _topics s
  let topics := if topics.isEmpty then ["General"] else topics
  let chosen := if maxTopics > 0 then topics.take maxTopics.toNat else topics
  let base := chosen.flatMap fallbackTriple
  _cap_per_topic qPer (_validate_questions base)

/-- Keyword table of `llm._heuristic_grade` (`KEYWORDS.get(topic, [])`). -/
def KEYWORDS (topic : String) : List String :=
  if topic = "python" then
    ["function", "class", "list", "dict", "loop", "with", "context",
     "generator", "example"]
  else if topic = "django" then
    ["model", "view", "template", "orm", "queryset", "middleware",
     "settings", "migration"]
  else if topic = "react" then
    ["state", "props", "hook", "component", "useeffect", "memo", "render",
     "jsx"]
  else if topic = "sql" then
    ["select", "join", "index", "transaction", "foreign key", "where",
     "group by", "explain"]
  else if topic = "docker" then
    ["image", "container", "dockerfile", "build", "compose", "registry",
     "volume", "network"]
  else if topic = "kubernetes" then
    ["pod", "deployment", "service", "ingress", "namespace", "cluster",
     "helm", "scaling"]
  else if topic = "pytorch" then
    ["tensor", "autograd", "module", "optimizer", "dataset", "dataloader",
     "backward"]
  else []

/-- Python's `str.strip()` (no argument): drop leading and trailing
whitespace. -/
def pyStrip (s : String) : String :=
  ⟨((s.data.dropWhile Char.isWhitespace).reverse.dropWhile
      Char.isWhitespace).reverse⟩

/-- Grading result dict `{"verdict": …, "feedback": …}`. -/
structure GradeResult where
  verdict : String
  feedback : String
deriving Repr, DecidableEq

/-- `llm._heuristic_grade`. -/
def _heuristic_grade (q : Question) (answer : String) : GradeResult :=
  let topic := pyLower q.topic
  let text := " " ++ pyLower answer ++ " "
  let kws := KEYWORDS topic
  let hits := kws.countP (fun k => containsSub k text)
  let verdict :=
    if 2 ≤ hits ∨ 80 ≤ (pyStrip answer).length then "pass"
    else "needs_improvement"
  let feedback :=
    if verdict = "pass" then "Covers several key concepts."
    else "Add key concepts and a small code/example to strengthen the answer."
  ⟨verdict, feedback⟩

/-- Presence of the three required `Question` fields as string values, in
the words of the specification's schema-validation rule (used to compare
the code's pydantic validation against the spec). -/
def specValid : Json → Bool
  | .obj fields =>
      (lookupStr fields "topic").isSome && (lookupStr fields "question").isSome
        && (lookupStr fields "difficulty").isSome
  | _ => false

theorem validate_eq_filterMap (items : List Json) :
    _validate_questions items = items.filterMap questionOfJson := by
  induction items with
  | nil => rfl
  | cons j js ih =>
    cases h : questionOfJson j <;>
      simp [_validate_questions, List.filterMap_cons, h, ih]

theorem questionOfJson_isSome (j : Json) :
    (questionOfJson j).isSome = specValid j := by
  cases j
  case obj fields =>
    cases h1 : lookupStr fields "topic" <;>
    cases h2 : lookupStr fields "question" <;>
    cases h3 : lookupStr fields "difficulty" <;>
      simp [questionOfJson, specValid, h1, h2, h3]
  all_goals rfl

/-- C5 counterexample: the claim says schema validation discards items
whose difficulty is outside {beginner, intermediate, advanced}.
`schemas.Question` declares `difficulty : str` with no enum, so an item
with difficulty `"expert"` is kept by `_validate_questions`. -/
theorem C5_counterexample :
    _validate_questions
        [Json.obj [("topic", Json.str "Python"), ("question", Json.str "Q"),
                   ("difficulty", Json.str "expert")]]
      = [⟨"Python", "Q", "expert"⟩]
    ∧ "expert" ∉ ["beginner", "intermediate", "advanced"] := by
  exact ⟨rfl, by decide⟩

/-- C5 (amended): for every list of parsed question items, schema
validation keeps exactly the items whose required fields topic, question
and difficulty are present with string values — the difficulty value is
not constrained to any enum — and silently discards every other item
without raising. -/
theorem C5_validation_keeps_present_fields (items : List Json) (j : Json) :
    _validate_questions items = items.filterMap questionOfJson
    ∧ (questionOfJson j).isSome = specValid j :=
  ⟨validate_eq_filterMap items, questionOfJson_isSome j⟩

/-- C7: fallback generation for the topic list [Python, Docker] with topic
cap 2 and per-topic cap 3 yields exactly the six fixed-template questions,
one per difficulty per topic, and no topic's count exceeds the per-topic
cap. -/
theorem C7_fallback_python_docker :
    _fallback 3 2 ⟨["Python"], [], [], ["Docker"]⟩
      = [⟨"Python", "Explain fundamentals of Python and show a simple example.",
          "beginner"⟩,
         ⟨"Python", "Describe a debugging incident you solved in Python.",
          "intermediate"⟩,
         ⟨"Python",
          "Design for performance/reliability in Python under load—key trade-offs?",
          "advanced"⟩,
         ⟨"Docker", "Explain fundamentals of Docker and show a simple example.",
          "beginner"⟩,
         ⟨"Docker", "Describe a debugging incident you solved in Docker.",
          "intermediate"⟩,
         ⟨"Docker",
          "Design for performance/reliability in Docker under load—key trade-offs?",
          "advanced"⟩]
    ∧ (_fallback 3 2 ⟨["Python"], [], [], ["Docker"]⟩).length = 6
    ∧ ∀ t ∈ (_fallback 3 2 ⟨["Python"], [], [], ["Docker"]⟩).map Question.topic,
        (((_fallback 3 2 ⟨["Python"], [], [], ["Docker"]⟩).filter
            (fun q => q.topic = t)).length : Int) ≤ 3 := by
  refine ⟨rfl, rfl, by decide⟩

theorem infix_pad (k a : List Char) (hne : k ≠ [])
    (hh : k.head? ≠ some ' ') (hl : k.getLast? ≠ some ' ') :
    (∃ s t, s ++ k ++ t = ' ' :: (a ++ [' '])) ↔ ∃ s t, s ++ k ++ t = a := by
  constructor
  · rintro ⟨s, t, h⟩
    cases s with
    | nil =>
      exfalso
      cases k with
      | nil => exact hne rfl
      | cons c k' =>
        simp only [List.nil_append, List.cons_append] at h
        obtain ⟨hc, -⟩ := List.cons.inj h
        exact hh (by simp [hc])
    | cons c s' =>
      simp only [List.cons_append] at h
      obtain ⟨-, h2⟩ := List.cons.inj h
      have h3 := congrArg List.reverse h2
      simp only [List.reverse_append, List.reverse_cons, List.reverse_nil,
        List.nil_append, List.append_assoc] at h3
      cases ht : t.reverse with
      | nil =>
        exfalso
        rw [ht, List.nil_append] at h3
        cases hk : k.reverse with
        | nil =>
          exact hne (by simpa using congrArg List.reverse hk)
        | cons e r =>
          rw [hk, List.cons_append] at h3
          obtain ⟨he, -⟩ := List.cons.inj h3
          apply hl
          rw [← List.head?_reverse, hk, he]
          rfl
      | cons d rt' =>
        rw [ht, List.cons_append] at h3
        obtain ⟨-, h4⟩ := List.cons.inj h3
        refine ⟨s', rt'.reverse, ?_⟩
        have h5 := congrArg List.reverse h4
        simp only [List.reverse_append, List.reverse_reverse,
          List.append_assoc] at h5
        simpa [List.append_assoc] using h5
  · rintro ⟨s, t, rfl⟩
    exact ⟨' ' :: s, t ++ [' '], by simp⟩

theorem containsSeq_pad (k a : List Char) (hne : k ≠ [])
    (hh : k.head? ≠ some ' ') (hl : k.getLast? ≠ some ' ') :
    containsSeq k (' ' :: (a ++ [' '])) = containsSeq k a := by
  have H : containsSeq k (' ' :: (a ++ [' '])) = true
      ↔ containsSeq k a = true := by
    rw [containsSeq_iff, containsSeq_iff]
    exact infix_pad k a hne hh hl
  by_cases hb : containsSeq k a = true
  · rw [hb, H.mpr hb]
  · have hb' : containsSeq k a = false := by simpa using hb
    have hp' : containsSeq k (' ' :: (a ++ [' '])) = false := by
      rcases Bool.eq_false_or_eq_true (containsSeq k (' ' :: (a ++ [' '])))
        with h | h
      · exact absurd (H.mp h) hb
      · exact h
    rw [hb', hp']

theorem keywords_no_boundary_space (t : String) :
    ∀ k ∈ KEYWORDS t,
      k.data ≠ [] ∧ k.data.head? ≠ some ' ' ∧ k.data.getLast? ≠ some ' ' := by
  unfold KEYWORDS
  split_ifs <;> decide

/-- C8 counterexample: the claim reads the length test on the *raw* answer
(`length ≥ 80`), but the code tests `len(answer.strip()) ≥ 80`. An answer
of 85 spaces has raw length 85 and zero keyword hits, so the claim
predicts verdict "pass", while the code grades "needs_improvement". -/
theorem C8_counterexample :
    (String.mk (List.replicate 85 ' ')).length = 85
    ∧ (KEYWORDS "python").countP
        (fun k => containsSub k (pyLower (String.mk (List.replicate 85 ' ')))) = 0
    ∧ (_heuristic_grade ⟨"python", "Q", "beginner"⟩
        (String.mk (List.replicate 85 ' '))).verdict = "needs_improvement"
    ∧ ¬ ((_heuristic_grade ⟨"python", "Q", "beginner"⟩
            (String.mk (List.replicate 85 ' '))).verdict = "pass"
          ↔ (2 ≤ (KEYWORDS "python").countP
                (fun k => containsSub k
                  (pyLower (String.mk (List.replicate 85 ' '))))
              ∨ 80 ≤ (String.mk (List.replicate 85 ' ')).length)) := by
  refine ⟨by decide, by decide, by decide, by decide⟩

/-- C8 (amended): the heuristic grader returns verdict "pass" if and only
if at least 2 keywords from the fixed keyword set for the question's topic
occur as case-insensitive substrings of the answer, or the *stripped*
answer length is at least 80 characters; otherwise "needs_improvement". -/
theorem C8_heuristic_grade_iff (q : Question) (answer : String) :
    (_heuristic_grade q answer).verdict = "pass"
      ↔ (2 ≤ (KEYWORDS (pyLower q.topic)).countP
            (fun k => containsSub k (pyLower answer))
          ∨ 80 ≤ (pyStrip answer).length) := by
  have hdata : (" " ++ pyLower answer ++ " ").data
      = ' ' :: ((pyLower answer).data ++ [' ']) := rfl
  have hcount : (KEYWORDS (pyLower q.topic)).countP
        (fun k => containsSub k (" " ++ pyLower answer ++ " "))
      = (KEYWORDS (pyLower q.topic)).countP
        (fun k => containsSub k (pyLower answer)) := by
    apply List.countP_congr
    intro k hk
    obtain ⟨h1, h2, h3⟩ := keywords_no_boundary_space _ k hk
    simp only [containsSub, hdata]
    rw [containsSeq_pad _ _ h1 h2 h3]
  simp only [_heuristic_grade, hcount]
  split_ifs with h <;> simp [h]

/-! ## JSON parsing (model of Python `json.loads`) -/

/-- JSON insignificant whitespace skip (space, tab, newline, CR). -/
def jsonWs : List Char → List Char
  | c :: cs => if c = ' ' || c = '\t' || c = '\n' || c = '\r' then jsonWs cs
               else c :: cs
  | [] => []

/-- Value of a hex digit. -/
def hexVal (c : Char) : Option Nat :=
  if '0' ≤ c ∧ c ≤ '9' then some (c.toNat - '0'.toNat)
  else if 'a' ≤ c ∧ c ≤ 'f' then some (c.toNat - 'a'.toNat + 10)
  else if 'A' ≤ c ∧ c ≤ 'F' then some (c.toNat - 'A'.toNat + 10)
  else none

/-- Single-character JSON string escapes (`\u` is handled separately). -/
def escMap (c : Char) : Option Char :=
  if c = '"' then some '"'
  else if c = '\\' then some '\\'
  else if c = '/' then some '/'
  else if c = 'b' then some (Char.ofNat 8)
  else if c = 'f' then some (Char.ofNat 12)
  else if c = 'n' then some '\n'
  else if c = 'r' then some '\r'
  else if c = 't' then some '\t'
  else none

/-- Parses a JSON string body (after the opening quote), fuel-bounded. -/
def pString : Nat → List Char → Option (String × List Char)
  | 0, _ => none
  | _, [] => none
  | fuel + 1, c :: cs =>
    if c = '"' then some ("", cs)
    else if c = '\\' then
      match cs with
      | 'u' :: h1 :: h2 :: h3 :: h4 :: cs' =>
        match hexVal h1, hexVal h2, hexVal h3, hexVal h4 with
        | some a, some b, some c3, some d =>
          match pString fuel cs' with
          | some (s, r) =>
              some (⟨Char.ofNat (((a * 16 + b) * 16 + c3) * 16 + d) :: s.data⟩, r)
          | none => none
        | _, _, _, _ => none
      | e :: cs' =>
        match escMap e with
        | some ch =>
          match pString fuel cs' with
          | some (s, r) => some (⟨ch :: s.data⟩, r)
          | none => none
        | none => none
      | [] => none
    else if c.toNat < 32 then none
    else
      match pString fuel cs with
      | some (s, r) => some (⟨c :: s.data⟩, r)
      | none => none

/-- Maximal run of decimal digits. -/
def spanDigits : List Char → List Char × List Char
  | [] => ([], [])
  | c :: cs =>
    if c.isDigit then
      let (d, r) := spanDigits cs
      (c :: d, r)
    else ([], c :: cs)

/-- Integer part of a JSON number (`0` or a nonzero digit followed by
digits). -/
def pIntPart : List Char → Option (List Char × List Char)
  | [] => none
  | c :: cs =>
    if c = '0' then some (['0'], cs)
    else if c.isDigit then
      let (d, r) := spanDigits cs
      some (c :: d, r)
    else none

/-- Optional fraction part. -/
def pFrac : List Char → List Char × List Char
  | '.' :: cs =>
    let (d, r) := spanDigits cs
    if d.isEmpty then ([], '.' :: cs) else ('.' :: d, r)
  | cs => ([], cs)

/-- Optional exponent part. -/
def pExp : List Char → List Char × List Char
  | c :: cs =>
    if c = 'e' ∨ c = 'E' then
      match cs with
      | s :: cs' =>
        if s = '+' ∨ s = '-' then
          let (d, r) := spanDigits cs'
          if d.isEmpty then ([], c :: cs) else (c :: s :: d, r)
        else
          let (d, r) := spanDigits cs
          if d.isEmpty then ([], c :: cs) else (c :: d, r)
      | [] => ([], [c])
    else ([], c :: cs)
  | [] => ([], [])

/-- Parses a JSON number, keeping its lexeme. -/
def pNumber (cs : List Char) : Option (Json × List Char) :=
  let (neg, cs1) := match cs with
    | '-' :: r => (['-'], r)
    | _ => (([] : List Char), cs)
  match pIntPart cs1 with
  | none => none
  | some (ip, r1) =>
    let (fp, r2) := pFrac r1
    let (ep, r3) := pExp r2
    some (.num ⟨neg ++ ip ++ fp ++ ep⟩, r3)

mutual

/-- Parses one JSON value (leading whitespace allowed), fuel-bounded. -/
def pValue : Nat → List Char → Option (Json × List Char)
  | 0, _ => none
  | fuel + 1, cs =>
    match jsonWs cs with
    | [] => none
    | c :: rest =>
      if c = '{' then
        match jsonWs rest with
        | '}' :: r2 => some (.obj [], r2)
        | r2 =>
          match pMembers fuel r2 with
          | some (ms, r3) => some (.obj ms, r3)
          | none => none
      else if c = '[' then
        match jsonWs rest with
        | ']' :: r2 => some (.arr [], r2)
        | r2 =>
          match pElems fuel r2 with
          | some (es, r3) => some (.arr es, r3)
          | none => none
      else if c = '"' then
        match pString fuel rest with
        | some (s, r2) => some (.str s, r2)
        | none => none
      else if c = 't' then
        if startsWithB ['r', 'u', 'e'] rest then some (.bool true, rest.drop 3)
        else none
      else if c = 'f' then
        if startsWithB ['a', 'l', 's', 'e'] rest then
          some (.bool false, rest.drop 4)
        else none
      else if c = 'n' then
        if startsWithB ['u', 'l', 'l'] rest then some (.null, rest.drop 3)
        else none
      else pNumber (c :: rest)

/-- Parses the members of a JSON object (after `{`, at least one member). -/
def pMembers : Nat → List Char → Option (List (String × Json) × List Char)
  | 0, _ => none
  | fuel + 1, cs =>
    match jsonWs cs with
    | '"' :: r1 =>
      match pString fuel r1 with
      | some (k, r2) =>
        match jsonWs r2 with
        | ':' :: r3 =>
          match pValue fuel r3 with
          | some (v, r4) =>
            match jsonWs r4 with
            | ',' :: r5 =>
              match pMembers fuel r5 with
              | some (ms, r6) => some ((k, v) :: ms, r6)
              | none => none
            | '}' :: r5 => some ([(k, v)], r5)
            | _ => none
          | none => none
        | _ => none
      | none => none
    | _ => none

/-- Parses the elements of a JSON array (after `[`, at least one element). -/
def pElems : Nat → List Char → Option (List Json × List Char)
  | 0, _ => none
  | fuel + 1, cs =>
    match pValue fuel cs with
    | some (v, r1) =>
      match jsonWs r1 with
      | ',' :: r2 =>
        match pElems fuel r2 with
        | some (es, r3) => some (v :: es, r3)
        | none => none
      | ']' :: r2 => some ([v], r2)
      | _ => none
    | none => none

end

/-- Python `json.loads` on a string: parse one JSON document and require
only whitespace to remain. Returns `none` where `json.loads` raises.
(Duplicate object keys are kept in order here, first occurrence looked up,
whereas Python keeps the last; no claim depends on duplicate keys.) -/
def json_loads (s : String) : Option Json :=
  match pValue (2 * s.data.length + 4) s.data with
  | some (v, rest) => if jsonWs rest = [] then some v else none
  | none => none

/-! ## utils.py: `extract_first_json_object` -/

/-- Shortest prefix of the list strictly before the first occurrence of
`target` (none if `target` does not occur): the `.*?` of the bracket
regex under `re.DOTALL`. -/
def takeUntil (target : Char) : List Char → Option (List Char)
  | [] => none
  | c :: cs =>
    if c = target then some []
    else (takeUntil target cs).map (c :: ·)

/-- Leftmost, shortest match of the regex `(\{.*?\}|\[.*?\])` with
`re.DOTALL`: from the first `{` (resp. `[`) that has a later `}`
(resp. `]`), up to the nearest such closer. -/
def findBracketCandidate : List Char → Option (List Char)
  | [] => none
  | c :: rest =>
    if c = '{' then
      match takeUntil '}' rest with
      | some body => some ('{' :: (body ++ ['}']))
      | none => findBracketCandidate rest
    else if c = '[' then
      match takeUntil ']' rest with
      | some body => some ('[' :: (body ++ [']']))
      | none => findBracketCandidate rest
    else findBracketCandidate rest

/-- The literal pattern of `re.search(r"``````", s, flags=re.DOTALL)` at
utils.py line 74: six consecutive backticks, with no capture group. -/
def sixBackticks : String := "``````"

/-- `isinstance(i, dict) and "question" in i` over elements of a parsed
JSON list: decides the `{"questions": …}` vs `{"items": …}` wrapping. -/
def wrapList (l : List Json) : List (String × Json) :=
  if l.any (fun j => match j with
      | .obj f => (f.lookup "question").isSome
      | _ => false)
  then [("questions", .arr l)] else [("items", .arr l)]

/-- `utils.extract_first_json_object` on backend text. The first regex
(line 74) is literally six backticks with *no capture group*; when it
matches, line 77 `candidate = m.group(1) if m else s` raises `IndexError`
outside every `try` block, so the function raises — embedded as
`.error`. Otherwise `candidate` comes from the bracket regex (or is the
whole text), and the three `try` blocks run in order: parse the candidate,
parse the raw text, then one level of doubly-encoded JSON; scalar parses
fall through without returning, and total failure yields the empty
object. -/
def extract_first_json_object (s : String) :
    Except String (List (String × Json)) :=
  if containsSub sixBackticks s then .error "IndexError: no such group"
  else
    let candidate : String := ⟨(findBracketCandidate s.data).getD s.data⟩
    match json_loads candidate with
    | some (.arr l) => .ok (wrapList l)
    | some (.obj f) => .ok f
    | _ =>
      match json_loads s with
      | some (.arr l) => .ok (wrapList l)
      | some (.obj f) => .ok f
      | _ =>
        match json_loads candidate with
        | some (.str inner) =>
          match json_loads inner with
          | some (.arr l) => .ok (wrapList l)
          | some (.obj f) => .ok f
          | _ => .ok []
        | some (.obj f) => .ok f
        | some (.arr l) => .ok (wrapList l)
        | _ => .ok []

/-- C6 (code bug): the claim says JSON extraction tries the fenced-code-
block strategy first and never raises. In the code the fenced regex is the
literal six-backtick pattern `r"``````"` with no capture group, so
`m.group(1)` raises `IndexError` on any text containing six consecutive
backticks (for example an empty fenced block), and the fenced strategy
never extracts fenced content — a properly fenced JSON payload is rescued
only by the bracket-substring strategy. -/
theorem C6_extract_code_bug :
    extract_first_json_object "``````" = .error "IndexError: no such group"
    ∧ extract_first_json_object "text ``````" = .error "IndexError: no such group"
    ∧ extract_first_json_object "```json\n\x7b\"a\": 1\x7d\n```"
        = .ok [("a", Json.num "1")] :=
  ⟨rfl, rfl, rfl⟩

/-- `data.get("questions", [])` of `llm.generate_questions`, as the item
list handed to `_validate_questions`. A `questions` value that is not a
list either raises in the `for` statement of `_validate_questions` or
yields no valid item, and in both cases `generate_questions` returns the
same `_fallback` question list (only the diagnostic text differs); it is
modelled by the empty item list. -/
def getQuestionsList (data : List (String × Json)) : List Json :=
  match data.lookup "questions" with
  | some (.arr l) => l
  | _ => []

/-- `llm.generate_questions` on the openai provider path, with the backend
call's `ChatResult` as an oracle parameter and the two environment caps
(`QUESTIONS_PER_TOPIC`, `MAX_TOPICS`) explicit. Prompt construction only
feeds the backend and does not influence the returned value, so it is not
modelled. -/
def generate_questions (res : ChatResult) (qPer maxTopics : Int)
    (stack : TechStack) : List Question × String :=
  if !res.ok then (_fallback qPer maxTopics stack, "fallback:" ++ res.error)
  else
    match extract_first_json_object (res.content.getD "") with
    | .error e => (_fallback qPer maxTopics stack, "fallback:" ++ e)
    | .ok data =>
      let items := _validate_questions (getQuestionsList data)
      if items.isEmpty then
        (_fallback qPer maxTopics stack, "fallback:Empty or invalid questions")
      else (_cap_per_topic qPer items, "")

theorem fallback_ne_nil (s : TechStack) : _fallback 3 2 s ≠ [] := by
  cases h : _topics s with
  | nil =>
    simp [_fallback, h, fallbackTriple, _validate_questions, questionOfJson,
      lookupStr, _cap_per_topic, capGo]
  | cons t ts =>
    simp [_fallback, h, fallbackTriple, _validate_questions, questionOfJson,
      lookupStr, _cap_per_topic, capGo]

/-- C10: for a tech stack whose four category lists are all empty,
fallback generation substitutes the single topic "General" and returns
exactly three questions on that topic, one per difficulty; the fallback
list is never empty for any stack, and `generate_questions` never returns
an empty question list on the fallback path (a nonempty diagnostic). -/
theorem C10_fallback_general (s : TechStack) (res : ChatResult) :
    _fallback 3 2 TechStack.init
      = [⟨"General",
          "Explain fundamentals of General and show a simple example.",
          "beginner"⟩,
         ⟨"General", "Describe a debugging incident you solved in General.",
          "intermediate"⟩,
         ⟨"General",
          "Design for performance/reliability in General under load—key trade-offs?",
          "advanced"⟩]
    ∧ _fallback 3 2 s ≠ []
    ∧ ((generate_questions res 3 2 s).2 ≠ ""
        → (generate_questions res 3 2 s).1 ≠ []) := by
  refine ⟨rfl, fallback_ne_nil s, ?_⟩
  intro hsnd
  unfold generate_questions at hsnd ⊢
  cases hres : res.ok with
  | false => simpa [hres] using fallback_ne_nil s
  | true =>
    simp only [hres, Bool.not_true, Bool.false_eq_true, if_false] at hsnd ⊢
    cases hext : extract_first_json_object (res.content.getD "") with
    | error e => simpa [hext] using fallback_ne_nil s
    | ok data =>
      simp only [hext] at hsnd ⊢
      by_cases hempty : (_validate_questions (getQuestionsList data)).isEmpty
      · simpa [hempty] using fallback_ne_nil s
      · simp [hempty] at hsnd

/-- Witness for C10's fallback-path implication at a concrete failing
backend result. -/
theorem C10_fallback_general_witness :
    (generate_questions ⟨false, none, false, "boom"⟩ 3 2 TechStack.init).2 ≠ ""
    ∧ (generate_questions ⟨false, none, false, "boom"⟩ 3 2 TechStack.init).1 ≠ [] :=
  ⟨by decide,
   (C10_fallback_general TechStack.init ⟨false, none, false, "boom"⟩).2.2
     (by decide)⟩

/-! ## utils.py: small text helpers -/

/-- Word character for the regex `\w` (ASCII model; the claims only use
ASCII inputs). -/
def wordChar (c : Char) : Bool := c.isAlphanum || c = '_'

/-- `startswith` on strings, by character comparison. -/
def pyStartsWith (p s : String) : Bool := startsWithB p.data s.data

/-- `utils.AFFIRM_WORDS` (the 12th entry is the mojibake literal from the
source file: U+00C3 followed by U+00AD after the `s`). -/
def AFFIRM_WORDS : List String :=
  ["y", "yes", "yeah", "yep", "yup", "sure", "ok", "okay", "affirmative",
   "agree", "si", "sÃ­", "oui", "da"]

/-- `utils.is_affirmative`: strip, lower, drop all non-word characters
(`re.sub(r"\W+", "", …)`), then membership in the affirmative set or a
leading `y`. -/
def is_affirmative (text : String) : Bool :=
  let t : String := ⟨(pyLower (pyStrip text)).data.filter wordChar⟩
  AFFIRM_WORDS.contains t || pyStartsWith "y" t

/-- `utils.csv_or_list`: split on every `;` or `,`, strip each piece, keep
the non-empty ones. -/
def csv_or_list (text : String) : List String :=
  ((text.data.splitOnP (fun c => c = ';' || c = ',')).map
      (fun p => pyStrip ⟨p⟩)).filter (· ≠ "")

/-- Maximal word-character runs (`re.findall(r"\w+", lower)`). -/
def wordTokens (s : String) : List String :=
  ((s.data.splitOnP (fun c => !wordChar c)).filter (· ≠ [])).map
    (fun l => (⟨l⟩ : String))

/-- `app.is_exit`: the lowercased trimmed message equals an end keyword,
or contains one as a whole word token. -/
def is_exit (text : String) : Bool :=
  END_KEYWORDS.any (fun k =>
    (wordTokens (pyLower (pyStrip text))).contains k
      || k == pyLower (pyStrip text))

/-! ## app.py: field validators -/

/-- Maximal whitespace-separated tokens of a string. -/
def wsTokens (s : String) : List String :=
  ((s.data.splitOnP Char.isWhitespace).filter (· ≠ [])).map (fun l => ⟨l⟩)

/-- `re.sub(r"\s+", " ", s.strip())`: on stripped text, replacing each
maximal whitespace run by one space equals joining the whitespace-
separated tokens with single spaces. -/
def collapseStrip (s : String) : String :=
  ⟨List.intercalate [' '] ((wsTokens (pyStrip s)).map String.data)⟩

/-- One name part matching `[A-Za-z][A-Za-z.'\-]{1,}`: a letter followed
by at least one letter, period, apostrophe or hyphen. -/
def namePartOk (p : String) : Bool :=
  match p.data with
  | [] => false
  | c :: rest =>
    c.isAlpha && 1 ≤ rest.length
      && rest.all (fun d => d.isAlpha || d = '.' || d = '\'' || d = '-')

/-- Python `str.capitalize()`: first character uppercased, the rest
lowercased. -/
def pyCapitalize (p : String) : String :=
  match p.data with
  | [] => ""
  | c :: rest => ⟨c.toUpper :: rest.map Char.toLower⟩

/-- `app.validate_full_name`; `none` models the raised `ValueError`. -/
def validate_full_name (name : String) : Option String :=
  let s := collapseStrip name
  let parts := ((s.data.splitOnP (· = ' ')).filter (· ≠ [])).map
    (fun l => (⟨l⟩ : String))
  if parts.length < 2 then none
  else if parts.any (fun p => !namePartOk p) then none
  else if s.length < 4 ∨ 100 < s.length then none
  else some ⟨List.intercalate [' '] (parts.map (fun p => (pyCapitalize p).data))⟩

/-- `app.TECH_ROLE_KEYWORDS`. -/
def TECH_ROLE_KEYWORDS : List String :=
  ["engineer", "developer", "dev", "data", "ml", "ai", "machine", "learning",
   "backend", "front", "frontend", "full", "stack", "fullstack", "devops",
   "site", "reliability", "sre", "mobile", "android", "ios", "qa", "test",
   "testing", "automation", "cloud", "platform", "security", "analyst",
   "scientist", "architect", "etl", "mle", "nlp", "cv", "vision", "infra",
   "infrastructure"]

/-- Characters allowed in a role item: the class `[A-Za-z0-9 /&+\-_.]`. -/
def roleChar (c : Char) : Bool :=
  c.isAlphanum || c = ' ' || c = '/' || c = '&' || c = '+' || c = '-'
    || c = '_' || c = '.'

/-- Maximal lowercase letter runs (`re.findall(r"[A-Za-z]+", it.lower())`). -/
def letterTokens (s : String) : List String :=
  (((pyLower s).data.splitOnP (fun c => !c.isAlpha)).filter (· ≠ [])).map
    (fun l => ⟨l⟩)

/-- `app.validate_positions_strict`; `none` models the raised `ValueError`. -/
def validate_positions_strict (text : String) : Option (List String) :=
  let items := csv_or_list text
  if items.isEmpty then none
  else if items.all (fun it =>
      (2 ≤ it.length && it.length ≤ 50 && it.data.all roleChar)
        && TECH_ROLE_KEYWORDS.any (fun k => (letterTokens it).contains k))
  then some items
  else none

/-! ## app.py: StackClassifier (`parse_stack`) -/

/-- `app.KNOWN` vocabulary (Python set literals, kept in written order;
only membership matters). -/
def KNOWN_languages : List String :=
  ["Python", "JavaScript", "TypeScript", "Java", "C++", "C#", "Go", "Rust",
   "Kotlin", "Swift", "Ruby", "PHP", "R", "Scala", "MATLAB", "SQL", "Bash",
   "Shell"]

/-- `app.KNOWN["frameworks"]`. -/
def KNOWN_frameworks : List String :=
  ["Django", "Flask", "FastAPI", "Spring", "Spring Boot", "React", "Next.js",
   "Angular", "Vue", "Express", "Node.js", ".NET", "ASP.NET", "Laravel",
   "Rails", "Svelte", "Nuxt", "NestJS", "PyTorch", "TensorFlow", "Keras",
   "scikit-learn", "XGBoost", "LightGBM", "pandas", "NumPy"]

/-- `app.KNOWN["databases"]`. -/
def KNOWN_databases : List String :=
  ["PostgreSQL", "MySQL", "SQLite", "MongoDB", "Redis", "Cassandra",
   "Elasticsearch", "Oracle", "SQL Server", "DynamoDB", "Snowflake",
   "BigQuery"]

/-- `app.KNOWN["tools"]`. -/
def KNOWN_tools : List String :=
  ["Docker", "Kubernetes", "AWS", "GCP", "Azure", "Git", "GitHub", "GitLab",
   "Bitbucket", "Terraform", "Ansible", "Jenkins", "Airflow", "Kafka",
   "RabbitMQ", "Nginx", "Linux", "VSCode"]

/-- `app.ALIASES` (alias → canonical entry). -/
def ALIASES : List (String × String) :=
  [("postgres", "PostgreSQL"), ("postgresql", "PostgreSQL"),
   ("postgre", "PostgreSQL"), ("node", "Node.js"), ("nodejs", "Node.js"),
   ("reactjs", "React"), ("nextjs", "Next.js"), ("ms sql", "SQL Server"),
   ("mssql", "SQL Server"), ("google cloud", "GCP"), ("gcloud", "GCP"),
   ("amazon web services", "AWS"), ("azure devops", "Azure"),
   ("k8s", "Kubernetes"), ("tf", "Terraform"),
   ("scikit learn", "scikit-learn"), ("pytorch lightning", "PyTorch"),
   ("ts", "TypeScript"), ("js", "JavaScript")]

/-- `app.NON_TECH` stoplist. -/
def NON_TECH : List String :=
  ["snake", "cat", "dog", "human", "food", "movie", "music", "song", "dance"]

/-- `app.INDEX_LOWER`: casefolded vocabulary entry ↦ (category, entry),
built category by category as in the source. -/
def INDEX_LOWER : List (String × String × String) :=
  KNOWN_languages.map (fun i => (pyLower i, "languages", i))
  ++ KNOWN_frameworks.map (fun i => (pyLower i, "frameworks", i))
  ++ KNOWN_databases.map (fun i => (pyLower i, "databases", i))
  ++ KNOWN_tools.map (fun i => (pyLower i, "tools", i))

/-- Dictionary lookup in `INDEX_LOWER`. -/
def indexLookup (low : String) : Option (String × String) :=
  (INDEX_LOWER.find? (fun e => e.1 == low)).map (fun e => e.2)

/-- `app.ALIASES_LOWER`: alias (casefolded) ↦ `INDEX_LOWER` entry for its
canonical name, kept only when the canonical name is in the vocabulary. -/
def ALIASES_LOWER : List (String × String × String) :=
  ALIASES.filterMap (fun a =>
    match indexLookup (pyLower a.2) with
    | some hit => some (pyLower a.1, hit.1, hit.2)
    | none => none)

/-- Dictionary lookup in `ALIASES_LOWER`. -/
def aliasLookup (low : String) : Option (String × String) :=
  (ALIASES_LOWER.find? (fun e => e.1 == low)).map (fun e => e.2)

/-- `app._match_known`, with the rapidfuzz
`process.extractOne(low, ALL_CANON_KEYS, scorer=fuzz.token_set_ratio)`
call abstracted as the oracle `fz` (it returns a best key with its score,
or nothing). -/
def _match_known (fz : String → Option (String × Nat)) (token : String) :
    Option (String × String) :=
  let tkn := pyStrip token
  if tkn = "" then none
  else
    let low := pyLower tkn
    if NON_TECH.contains low then none
    else
      match indexLookup low with
      | some hit => some hit
      | none =>
        match aliasLookup low with
        | some hit => some hit
        | none =>
          match fz low with
          | some best => if 92 ≤ best.2 then indexLookup best.1 else none
          | none => none

/-- Appends `item` to the bucket named `cat` unless already present
(`hit[1] not in buckets[cat]` followed by `append`). -/
def addToBucket (b : TechStack) (cat item : String) : TechStack :=
  if cat = "languages" then
    if b.languages.contains item then b
    else { b with languages := b.languages ++ [item] }
  else if cat = "frameworks" then
    if b.frameworks.contains item then b
    else { b with frameworks := b.frameworks ++ [item] }
  else if cat = "databases" then
    if b.databases.contains item then b
    else { b with databases := b.databases ++ [item] }
  else if cat = "tools" then
    if b.tools.contains item then b
    else { b with tools := b.tools ++ [item] }
  else b

/-- `any(buckets.values())`. -/
def anyBuckets (b : TechStack) : Bool :=
  !b.languages.isEmpty || !b.frameworks.isEmpty || !b.databases.isEmpty
    || !b.tools.isEmpty

/-- `str(item)` for JSON items fed to `_match_known` in the JSON strategy
(container reprs are approximated by text that matches nothing). -/
def jsonToStr : Json → String
  | .str s => s
  | .num l => l
  | .bool true => "True"
  | .bool false => "False"
  | .null => "None"
  | .arr _ => ""
  | .obj _ => ""

/-- Zero-valued number lexemes, the falsy numbers of
`data.get(cat, []) or []`. -/
def pyNumIsZero (l : String) : Bool :=
  l.data.all (fun c => c = '0' || c = '.' || c = '-')

/-- Items iterated for one category in the JSON strategy:
`for item in data.get(cat, []) or []`. `none` models a `TypeError` from
iterating a non-iterable truthy value, which aborts the whole JSON
strategy (its `except` falls through to the next strategy); falsy values
are replaced by `[]`; iterating a string yields its characters and a dict
its keys. -/
def jsonCatItems : Option Json → Option (List String)
  | none => some []
  | some (.arr l) => some (l.map jsonToStr)
  | some .null => some []
  | some (.str s) => some (s.data.map (fun c => (⟨[c]⟩ : String)))
  | some (.bool false) => some []
  | some (.bool true) => none
  | some (.num l) => if pyNumIsZero l then some [] else none
  | some (.obj f) => some (f.map (·.1))

/-- Category fill of the JSON strategy: match each item, keep hits whose
category equals `cat`, first-seen order, no duplicates. -/
def fillCat (fz : String → Option (String × Nat)) (cat : String)
    (items : List String) : List String :=
  items.foldl (fun acc item =>
    match _match_known fz item with
    | some hit =>
      if hit.1 = cat ∧ ¬ acc.contains hit.2 then acc ++ [hit.2] else acc
    | none => acc) []

/-- JSON strategy of `parse_stack` on a parsed object; `none` models the
`except` branch (a `TypeError` while iterating a category value). -/
def stackFromJson (fz : String → Option (String × Nat))
    (data : List (String × Json)) : Option TechStack :=
  match jsonCatItems (data.lookup "languages"),
        jsonCatItems (data.lookup "frameworks"),
        jsonCatItems (data.lookup "databases"),
        jsonCatItems (data.lookup "tools") with
  | some ls, some fs, some ds, some ts =>
    some ⟨fillCat fz "languages" ls, fillCat fz "frameworks" fs,
          fillCat fz "databases" ds, fillCat fz "tools" ts⟩
  | _, _, _, _ => none

/-- Splits a line at its first `:` (`line.split(":", 1)`); `none` when the
line has no colon. -/
def splitFirstColon : List Char → Option (List Char × List Char)
  | [] => none
  | c :: cs =>
    if c = ':' then some ([], cs)
    else (splitFirstColon cs).map (fun p => (c :: p.1, p.2))

/-- `s.splitlines()`, modelled as splitting on `\n` (the chat inputs in
this repository are newline-separated text). -/
def pyLines (s : String) : List String :=
  (s.data.splitOnP (· = '\n')).map (fun l => ⟨l⟩)

/-- One line of the labeled-lines strategy: on `category: items`, match
each comma/semicolon token and append hits of that category. -/
def labeledStep (fz : String → Option (String × Nat))
    (st : Bool × TechStack) (line : String) : Bool × TechStack :=
  match splitFirstColon line.data with
  | none => st
  | some kv =>
    let k := pyLower (pyStrip ⟨kv.1⟩)
    if k = "languages" ∨ k = "frameworks" ∨ k = "databases" ∨ k = "tools" then
      (true,
       (csv_or_list ⟨kv.2⟩).foldl (fun b token =>
          match _match_known fz token with
          | some hit => if hit.1 = k then addToBucket b k hit.2 else b
          | none => b) st.2)
    else st

/-- Separator characters of the free-text strategy (`[;,/|]`). -/
def isSep (c : Char) : Bool := c = ';' || c = ',' || c = '/' || c = '|'

/-- `re.split(r"[;,/|]+|\s{2,}", s)`: scan left to right, cutting at each
maximal run of separator characters, or at each maximal whitespace run of
length at least two. Fuel-bounded recursion (each step consumes at least
one character, so `length + 1` fuel always suffices and the fuel-exhausted
branch is unreachable). -/
def freeSplitGo : Nat → List Char → List Char → List (List Char)
  | _, cur, [] => [cur.reverse]
  | 0, cur, l => [cur.reverse ++ l]
  | fuel + 1, cur, c :: cs =>
    if isSep c then
      cur.reverse :: freeSplitGo fuel [] (cs.dropWhile isSep)
    else if c.isWhitespace && !(cs.takeWhile Char.isWhitespace).isEmpty then
      cur.reverse :: freeSplitGo fuel [] (cs.dropWhile Char.isWhitespace)
    else freeSplitGo fuel (c :: cur) cs

/-- Tokens of the free-text strategy. -/
def freeTokens (s : String) : List String :=
  (freeSplitGo (s.data.length + 1) [] s.data).map (fun l => ⟨l⟩)

/-- Strategies 2 (labeled lines) and 3 (free text) of `app.parse_stack`;
the free-text strategy continues filling the same `buckets` dictionary
that the labeled-lines strategy used. -/
def afterJson (fz : String → Option (String × Nat)) (s : String) : TechStack :=
  let lab := (pyLines s).foldl (labeledStep fz) (false, TechStack.init)
  if lab.1 ∧ anyBuckets lab.2 then lab.2
  else
    (freeTokens s).foldl (fun b tok =>
      match _match_known fz tok with
      | some hit => addToBucket b hit.1 hit.2
      | none => b) lab.2

/-- `app.parse_stack` (rapidfuzz scoring abstracted as `fz`). Strategy 1
applies only when the text parses as a JSON object (a parsed non-object
raises `AttributeError` on `.get` and falls through) and produced at least
one non-empty bucket. -/
def parse_stack (fz : String → Option (String × Nat)) (text : String) :
    TechStack :=
  let jsonTry : Option TechStack :=
    match json_loads text with
    | some (.obj data) => stackFromJson fz data
    | _ => none
  match jsonTry with
  | some b => if anyBuckets b then b else afterJson fz text
  | none => afterJson fz text

/-- C4: classifying the free text "python, django, postgres, docker"
yields exactly languages=[Python], frameworks=[Django],
databases=[PostgreSQL], tools=[Docker]; the alias token "postgres"
resolves to the canonical entry PostgreSQL. The result holds for every
fuzzy-matching oracle, because all four tokens are settled by the
exact/alias tables before the fuzzy stage. -/
theorem C4_parse_stack_free_text (fz : String → Option (String × Nat)) :
    parse_stack fz "python, django, postgres, docker"
      = ⟨["Python"], ["Django"], ["PostgreSQL"], ["Docker"]⟩
    ∧ aliasLookup "postgres" = some ("databases", "PostgreSQL") :=
  ⟨rfl, rfl⟩

/-! ## app.py: session state, i18n strings and the turn step -/

/-- Result of `utils.analyze_sentiment`. -/
structure Sentiment where
  label : String
  score : ℚ
deriving Repr, DecidableEq

/-- One chat transcript entry (`say` appends these). -/
structure Message where
  role : String
  content : String
  meta_lang : Option String
  meta_sentiment : Option Sentiment
deriving Repr, DecidableEq

/-- One graded answer appended in the questions phase. -/
structure AnswerRec where
  question : Question
  answer : String
  verdict : String
  feedback : String
deriving Repr, DecidableEq

/-- `st.session_state.prefs`. -/
structure Prefs where
  preferred_difficulty : String
  recent_topics : List String
deriving Repr, DecidableEq

/-- The Streamlit session state fields touched by the turn step. -/
structure SessionState where
  messages : List Message
  candidate : Candidate
  phase : String
  questions : List Question
  q_index : Nat
  answers : List AnswerRec
  language : String
  prefs : Prefs
deriving Repr, DecidableEq

/-- A stored personalization profile (`load_profile`). -/
structure Profile where
  language : Option String
  preferred_difficulty : Option String
  recent_topics : List String
deriving Repr, DecidableEq

/-- Oracles for the external-library calls of the turn step: langdetect,
vaderSentiment, email_validator (with the cleaning/fuzzy-domain pipeline),
profile storage, phonenumbers, Python float parsing, the geopy/pycountry
location normalizer, rapidfuzz scoring, the LLM answer grader, and the
backend chat response used by question generation. -/
structure Oracles where
  detect_language : String → String → String
  analyze_sentiment : String → Sentiment
  email_validate : String → Option String
  load_profile : String → Option Profile
  phone_parse : String → Option String
  parse_float : String → Option ℚ
  location_normalize : String → Option String
  fuzzy : String → Option (String × Nat)
  grade : Question → String → String → GradeResult
  gen_chat : ChatResult

/-- `say("assistant", text)`. -/
def sayA (st : SessionState) (content : String) : SessionState :=
  { st with messages := st.messages ++ [⟨"assistant", content, none, none⟩] }

/-- English strings of the `I18N` table (plus key fallback). -/
def enString (key : String) : String :=
  if key = "greet" then
    "Hello! I’m TalentScout, the hiring assistant for technology roles. I’ll gather a few details and then ask tailored technical questions; type \x27exit\x27 or \x27bye\x27 anytime to finish."
  else if key = "ask_name" then "What is the full name?"
  else if key = "ask_email" then "What is the email address?"
  else if key = "ask_phone" then "What is the phone number with country code "
  else if key = "ask_yexp" then "How many years of professional experience?"
  else if key = "ask_roles" then
    "What position(s) are desired? (e.g., \x27Backend Engineer; MLE\x27)"
  else if key = "ask_loc" then "What is the current location (City, Country)?"
  else if key = "ask_stack" then
    "Could you share the primary technologies worked with recently? For example: Python, Django, PostgreSQL, Docker."
  else if key = "thanks" then
    "Thanks for the time. This conversation is now closed. Expect a follow‑up email with next steps."
  else key

/-- Hindi strings of the `I18N` table (missing keys fall back to the
English value, as `I18N.get(lang, en).get(key, en.get(key, key))` does). -/
def hiString (key : String) : String :=
  if key = "greet" then
    "नमस्ते! मैं TalentScout हूँ, तकनीकी भूमिकाओं के लिए भर्ती सहायक। कुछ विवरण लेकर उपयुक्त तकनीकी प्रश्न पूछूँगा; समाप्त करने के लिए \x27exit\x27 या \x27bye\x27 टाइप करें।"
  else if key = "ask_name" then "पूरा नाम क्या है?"
  else if key = "ask_email" then "ईमेल पता क्या है?"
  else if key = "ask_phone" then "फ़ोन नंबर देश कोड सहित"
  else if key = "ask_yexp" then "कुल अनुभव (वर्षों में) कितना है?"
  else if key = "ask_roles" then
    "वांछित पद क्या हैं? (उदा., \x27Backend Engineer; MLE\x27)"
  else if key = "ask_loc" then "वर्तमान स्थान (शहर, देश) क्या है?"
  else if key = "ask_stack" then
    "हाल ही में किन तकनीकों पर काम किया है? उदाहरण: Python, Django, PostgreSQL, Docker."
  else if key = "thanks" then
    "समय देने के लिए धन्यवाद। यह वार्तालाप अब समाप्त है। आगे की प्रक्रिया की सूचना दी जाएगी।"
  else enString key

/-- Base language: `(language or "en").split("-")[0]`. -/
def baseLang (lang : String) : String :=
  ⟨(if lang = "" then "en" else lang).data.takeWhile (· ≠ '-')⟩

/-- `app.t`: base-language lookup with English fallback. -/
def tFor (lang key : String) : String :=
  if baseLang lang = "hi" then hiString key else enString key

/-- Prompt table of `app.ask_for`. -/
def askPrompt (lang field : String) : String :=
  if field = "consent" then
    "May I collect a few basic details to begin the screening? Reply \x27yes\x27 to proceed or \x27exit\x27 to stop."
  else if field = "full_name" then tFor lang "ask_name"
  else if field = "email" then tFor lang "ask_email"
  else if field = "phone" then tFor lang "ask_phone"
  else if field = "years_experience" then tFor lang "ask_yexp"
  else if field = "desired_positions" then tFor lang "ask_roles"
  else if field = "current_location" then tFor lang "ask_loc"
  else if field = "tech_stack" then tFor lang "ask_stack"
  else ""

/-- The generic re-ask message of `validate_and_set`'s `except` handler. -/
def genericInvalid (field : String) : String :=
  "That doesn\x27t look valid for " ++ field
    ++ ". Please re-check and try again, or type \x27exit\x27 to finish."

/-- `list(dict.fromkeys(topics))`: deduplicate preserving first-seen
order. -/
def dedupKeep (seen : List String) : List String → List String
  | [] => []
  | x :: xs =>
    if seen.contains x then dedupKeep seen xs
    else x :: dedupKeep (x :: seen) xs

/-- Personalization effects of a loaded profile on the session (truthy
fields only), from the email branch of `validate_and_set`. -/
def applyProfile (st : SessionState) : Option Profile → SessionState
  | none => st
  | some p =>
    let st1 :=
      if !(optStrUnset p.language) then
        { st with language := p.language.getD "" }
      else st
    let st2 :=
      if !(optStrUnset p.preferred_difficulty) then
        { st1 with prefs :=
            { st1.prefs with preferred_difficulty :=
                p.preferred_difficulty.getD "" } }
      else st1
    if !p.recent_topics.isEmpty then
      { st2 with prefs := { st2.prefs with
          recent_topics := p.recent_topics.take 8 } }
    else st2

/-- `app.validate_and_set`: validates `text` for `field` on a copy of the
candidate and writes the copy back only on the success paths; the raised
`ValueError`s of the per-field validators are the `none` results, handled
by the `except` branch that re-asks with a generic message. Returns the
updated session state and the function's boolean result. -/
def validate_and_set (O : Oracles) (field text : String) (st : SessionState) :
    SessionState × Bool :=
  if field = "consent" then
    if is_affirmative (pyStrip text) then
      ({ st with candidate := { st.candidate with consent := true } }, true)
    else
      ({ (sayA st "No problem. Type \x27yes\x27 to proceed with consent or \x27exit\x27 to end.")
          with candidate := st.candidate }, false)
  else if field = "full_name" then
    match validate_full_name (pyStrip text) with
    | some v =>
      ({ st with candidate := { st.candidate with full_name := some v } }, true)
    | none => (sayA st (genericInvalid field), false)
  else if field = "email" then
    match O.email_validate (pyStrip text) with
    | some normalized =>
      ({ (applyProfile st (O.load_profile normalized)) with
          candidate := { st.candidate with email := some normalized } }, true)
    | none => (sayA st (genericInvalid field), false)
  else if field = "phone" then
    match O.phone_parse (pyStrip text) with
    | some e164 =>
      ({ st with candidate := { st.candidate with phone := some e164 } }, true)
    | none => (sayA st (genericInvalid field), false)
  else if field = "years_experience" then
    match O.parse_float (pyStrip text) with
    | some v =>
      if 0 ≤ v ∧ v ≤ 60 then
        ({ st with candidate :=
            { st.candidate with years_experience := some v } }, true)
      else (sayA st (genericInvalid field), false)
    | none => (sayA st (genericInvalid field), false)
  else if field = "desired_positions" then
    match validate_positions_strict (pyStrip text) with
    | some items =>
      ({ st with candidate :=
          { st.candidate with desired_positions := items } }, true)
    | none => (sayA st (genericInvalid field), false)
  else if field = "current_location" then
    match O.location_normalize (pyStrip text) with
    | some loc =>
      ({ st with candidate :=
          { st.candidate with current_location := some loc } }, true)
    | none => (sayA st (genericInvalid field), false)
  else if field = "tech_stack" then
    if !(anyBuckets (parse_stack O.fuzzy text)) then
      ({ (sayA st "That input doesn’t look like a technology list. Please enter items like \x27Python, Django, PostgreSQL, Docker\x27.")
          with candidate := st.candidate }, false)
    else
      ({ (if !((parse_stack O.fuzzy text).languages
              ++ (parse_stack O.fuzzy text).frameworks
              ++ (parse_stack O.fuzzy text).databases
              ++ (parse_stack O.fuzzy text).tools).isEmpty then
            { st with prefs := { st.prefs with recent_topics :=
                (dedupKeep [] ((parse_stack O.fuzzy text).languages
                  ++ (parse_stack O.fuzzy text).frameworks
                  ++ (parse_stack O.fuzzy text).databases
                  ++ (parse_stack O.fuzzy text).tools)).take 8 } }
          else st) with
          candidate := { st.candidate with
              tech_stack := some (parse_stack O.fuzzy text) } }, true)
  else
    ({ st with candidate := st.candidate }, true)

set_option maxHeartbeats 1000000 in
/-- C2: for every field and every raw user input on which that field's
validator fails (the call returns `False`), the stored candidate record
after the call equals the record before it — validation happens on a local
copy that is written back only by the success paths, so no partial update
ever occurs. -/
theorem C2_validator_failure_preserves_record (O : Oracles)
    (field text : String) (st : SessionState)
    (h : (validate_and_set O field text st).2 = false) :
    (validate_and_set O field text st).1.candidate = st.candidate := by
  unfold validate_and_set at h ⊢
  by_cases h1 : field = "consent"
  · rw [if_pos h1] at h ⊢
    by_cases ha : is_affirmative (pyStrip text) = true
    · rw [if_pos ha] at h; exact Bool.noConfusion h
    · rw [if_neg ha]
      all_goals rfl
  · rw [if_neg h1] at h ⊢
    by_cases h2 : field = "full_name"
    · rw [if_pos h2] at h ⊢
      generalize validate_full_name (pyStrip text) = r at h ⊢
      cases r with
      | none => rfl
      | some v => exact Bool.noConfusion h
    · rw [if_neg h2] at h ⊢
      by_cases h3 : field = "email"
      · rw [if_pos h3] at h ⊢
        generalize O.email_validate (pyStrip text) = r at h ⊢
        cases r with
        | none => rfl
        | some v => exact Bool.noConfusion h
      · rw [if_neg h3] at h ⊢
        by_cases h4 : field = "phone"
        · rw [if_pos h4] at h ⊢
          generalize O.phone_parse (pyStrip text) = r at h ⊢
          cases r with
          | none => rfl
          | some v => exact Bool.noConfusion h
        · rw [if_neg h4] at h ⊢
          by_cases h5 : field = "years_experience"
          · rw [if_pos h5] at h ⊢
            generalize O.parse_float (pyStrip text) = r at h ⊢
            cases r with
            | none => rfl
            | some v =>
              dsimp only at h ⊢
              by_cases hr : (0 : ℚ) ≤ v ∧ v ≤ 60
              · rw [if_pos hr] at h; exact Bool.noConfusion h
              · rw [if_neg hr]
                all_goals rfl
          · rw [if_neg h5] at h ⊢
            by_cases h6 : field = "desired_positions"
            · rw [if_pos h6] at h ⊢
              generalize validate_positions_strict (pyStrip text) = r at h ⊢
              cases r with
              | none => rfl
              | some v => exact Bool.noConfusion h
            · rw [if_neg h6] at h ⊢
              by_cases h7 : field = "current_location"
              · rw [if_pos h7] at h ⊢
                generalize O.location_normalize (pyStrip text) = r at h ⊢
                cases r with
                | none => rfl
                | some v => exact Bool.noConfusion h
              · rw [if_neg h7] at h ⊢
                by_cases h8 : field = "tech_stack"
                · rw [if_pos h8] at h ⊢
                  by_cases hb : (!(anyBuckets (parse_stack O.fuzzy text))) = true
                  · rw [if_pos hb]
                    all_goals rfl
                  · rw [if_neg hb] at h; exact Bool.noConfusion h
                · rw [if_neg h8] at h; exact Bool.noConfusion h

/-- Trivial oracle bundle used to instantiate universally quantified
theorems at concrete inputs. -/
def trivOracles : Oracles :=
  { detect_language := fun _ d => d
    analyze_sentiment := fun _ => ⟨"neutral", 0⟩
    email_validate := fun _ => none
    load_profile := fun _ => none
    phone_parse := fun _ => none
    parse_float := fun _ => none
    location_normalize := fun _ => none
    fuzzy := fun _ => none
    grade := fun _ _ _ => ⟨"needs_improvement", ""⟩
    gen_chat := ⟨false, none, false, "boom"⟩ }

/-- Fresh session state as initialized at the top of app.py. -/
def initState : SessionState :=
  { messages := [], candidate := Candidate.init, phase := "greet"
    questions := [], q_index := 0, answers := [], language := "en"
    prefs := ⟨"auto", []⟩ }

/-- Witness for C2 at a concrete failing input: a one-token full name is
rejected and the candidate record is untouched. -/
theorem C2_validator_failure_witness :
    (validate_and_set trivOracles "full_name" "x" initState).2 = false
    ∧ (validate_and_set trivOracles "full_name" "x" initState).1.candidate
        = initState.candidate :=
  ⟨by decide,
   C2_validator_failure_preserves_record trivOracles "full_name" "x" initState
     (by decide)⟩

/-- The greeting block that runs before input handling on each rerun:
in phase `greet`, say the localized greeting and move to `gather`. -/
def greetAdvance (st : SessionState) : SessionState :=
  if st.phase = "greet" then
    { (sayA st (tFor st.language "greet")) with phase := "gather" }
  else st

/-- The language-override pattern `[A-Za-z]{2,3}(-[A-Za-z]{2})?` as a full
match. -/
def isoMatch (s : String) : Bool :=
  match s.data.splitOnP (· = '-') with
  | [a] => (a.length = 2 ∨ a.length = 3) && a.all Char.isAlpha
  | [a, b] =>
    (a.length = 2 ∨ a.length = 3) && a.all Char.isAlpha
      && b.length = 2 && b.all Char.isAlpha
  | _ => false

/-- `app.ask_current_question`. -/
def ask_current_question (st : SessionState) : SessionState :=
  match st.questions.get? st.q_index with
  | some q =>
    sayA st ("Q" ++ toString (st.q_index + 1) ++ ". [" ++ q.topic ++ ", "
      ++ q.difficulty ++ "] " ++ q.question)
  | none => sayA st "No more questions."

/-- `app.ask_for`: prompt for a field in the session language. -/
def ask_for (st : SessionState) (field : String) : SessionState :=
  sayA st (askPrompt st.language field)

/-- Python `str.replace("_", " ")`. -/
def underscoreToSpace (s : String) : String :=
  ⟨s.data.map (fun c => if c = '_' then ' ' else c)⟩

/-- Python `str.title()`: uppercase every letter that follows a
non-letter, lowercase the other letters. -/
def pyTitleGo : Bool → List Char → List Char
  | _, [] => []
  | prevAlpha, c :: cs =>
    if c.isAlpha then
      (if prevAlpha then c.toLower else c.toUpper) :: pyTitleGo true cs
    else c :: pyTitleGo false cs

/-- Python `str.title()`. -/
def pyTitle (s : String) : String := ⟨pyTitleGo false s.data⟩

/-- `a or b` on an optional string versus a default. -/
def langOr (a : Option String) (b : String) : String :=
  match a with
  | some s => if s = "" then b else s
  | none => b

/-- The turn step of app.py (lines 579–641): one user input processed
against the session state. Order of effects, as in the source: greeting
block, language auto-detection (applied only when the current session
language does not match the ISO pattern), sentiment tagging, transcript
append of the user message, then the exit check, then either answer
grading (questions phase) or field resolution + validation + question
generation (gather flow). The `generate_questions` call uses the embedded
orchestrator with the backend response `O.gen_chat` and the default env
caps 3 and 2; its `language` argument only shapes the prompt and is not
modelled. -/
def handle_input (O : Oracles) (user_text : String) (st0 : SessionState) :
    SessionState :=
  let st := greetAdvance st0
  let detected :=
    O.detect_language user_text (if st.language = "" then "en" else st.language)
  let lang1 := if isoMatch st.language then st.language else detected
  let sent := O.analyze_sentiment user_text
  let st1 :=
    { st with
      language := lang1
      messages := st.messages ++ [⟨"user", user_text, some lang1, some sent⟩] }
  if is_exit user_text then
    { (sayA st1 (tFor st1.language "thanks")) with phase := "end" }
  else if st1.phase = "questions" then
    match st1.questions.get? st1.q_index with
    | some q =>
      let result :=
        O.grade q user_text (if st1.language = "" then "en" else st1.language)
      let verdict := pyTitle (underscoreToSpace result.verdict)
      let feedback := pyStrip result.feedback
      let st2 := sayA
        { st1 with answers := st1.answers ++ [⟨q, user_text, verdict, feedback⟩] }
        (if feedback = "" then "Evaluation: " ++ verdict ++ "."
         else "Evaluation: " ++ verdict ++ ". " ++ feedback)
      let st3 := { st2 with q_index := st2.q_index + 1 }
      if st3.q_index < st3.questions.length then
        ask_current_question st3
      else
        { (sayA st3 "Thanks for answering the questions. Type \x27exit\x27 to finish or share more details.")
            with phase := "wrapup" }
    | none =>
      sayA st1 "No more questions. Type \x27exit\x27 to finish or share more details."
  else
    let st2 :=
      if optStrUnset st1.candidate.language then
        { st1 with candidate :=
            { st1.candidate with language := some st1.language } }
      else st1
    let missing := next_missing_field st2.candidate
    if missing = "" then
      sayA st2 "Noted. Type \x27exit\x27 to conclude, or add more details."
    else
      let vr := validate_and_set O missing user_text st2
      if vr.2 then
        let next_field := next_missing_field vr.1.candidate
        if next_field = "" then
          let gen := generate_questions O.gen_chat 3 2
            ((vr.1.candidate.tech_stack).getD TechStack.init)
          let st3 := { vr.1 with questions := gen.1, q_index := 0, answers := [] }
          if st3.questions.isEmpty then
            sayA st3 "Unable to prepare questions right now. Please try again or type \x27exit\x27 to finish."
          else
            ask_current_question { st3 with phase := "questions" }
        else ask_for vr.1 next_field
      else ask_for vr.1 missing

/-- C9 counterexample: the claim says an exit message applies "no other
state change from that turn" beyond the terminal transition. On the
concrete message "BYE" from the fresh state, the turn does transition to
phase "end", but it also appends two transcript messages (the user message
with sentiment metadata, and the localized farewell), so the state differs
beyond the phase. -/
theorem C9_counterexample :
    (handle_input trivOracles "BYE" initState).phase = "end"
    ∧ (handle_input trivOracles "BYE" initState).messages ≠ initState.messages := by
  exact ⟨by decide, by decide⟩

/-- The two transcript entries appended by an exit turn: the user message
with its language/sentiment metadata, and the localized farewell. -/
def exitTurnMsgs (O : Oracles) (msg : String) (st : SessionState) :
    List Message :=
  let stg := greetAdvance st
  let lang1 :=
    if isoMatch stg.language then stg.language
    else O.detect_language msg (if stg.language = "" then "en" else stg.language)
  [⟨"user", msg, some lang1, some (O.analyze_sentiment msg)⟩,
   ⟨"assistant", tFor lang1 "thanks", none, none⟩]

/-- C9 (amended): a user message recognized by the end-of-conversation
test (any letter casing, whole trimmed message or whole word token)
transitions the session to the terminal "end" phase from every phase,
before any validation, generation or grading — the outcome is independent
of every oracle except language detection and sentiment — and changes
nothing else except appending the user message and the farewell to the
transcript (candidate record, questions, question index and answers are
unchanged; the session language is updated only by the auto-detection
step that precedes the exit check). -/
theorem C9_exit_terminates (O O2 : Oracles) (st : SessionState) (msg : String)
    (hex : is_exit msg = true) :
    (handle_input O msg st).phase = "end"
    ∧ (handle_input O msg st).candidate = st.candidate
    ∧ (handle_input O msg st).questions = st.questions
    ∧ (handle_input O msg st).q_index = st.q_index
    ∧ (handle_input O msg st).answers = st.answers
    ∧ (handle_input O msg st).messages
        = (greetAdvance st).messages ++ exitTurnMsgs O msg st
    ∧ (O.detect_language = O2.detect_language
        → O.analyze_sentiment = O2.analyze_sentiment
        → handle_input O msg st = handle_input O2 msg st) := by
  unfold handle_input
  simp only [hex, if_true, greetAdvance]
  refine ⟨?_, ?_, ?_, ?_, ?_, ?_, ?_⟩
  · first | trivial | rfl | (split <;> rfl)
  · first | trivial | rfl | (split <;> rfl)
  · first | trivial | rfl | (split <;> rfl)
  · first | trivial | rfl | (split <;> rfl)
  · first | trivial | rfl | (split <;> rfl)
  · simp [exitTurnMsgs, greetAdvance, sayA, List.append_assoc]
  · intro hdet hsent
    rw [hdet, hsent]

/-- Witness for C9 at the concrete message "BYE" from the fresh state. -/
theorem C9_exit_terminates_witness :
    is_exit "BYE" = true
    ∧ (handle_input trivOracles "BYE" initState).phase = "end" :=
  ⟨by decide,
   (C9_exit_terminates trivOracles trivOracles initState "BYE" (by decide)).1⟩

end TalentScout
